import Mathlib

/-!
Verification of the authentication and account-lockout state machine of
`src/auth.service.js` (class `AuthService`).

The credential store is modelled as a `List Account`; Sequelize's
`User.findOne` becomes `List.find?` and a row update becomes `saveAccount`
(replace the row with the matching id).  Timestamps are milliseconds as
`Nat`; `new Date()` / `Date.now()` at the moment of the call is the
parameter `now`.  The bcrypt collaborator is abstract: `bcrypt.compare`
is an arbitrary function `c : String → String → Bool` and `bcrypt.hash`
an arbitrary `hashFn : String → String`.  `crypto.randomBytes(...)`
token generation is abstracted by passing the freshly generated token as
a parameter.  JWT signing is modelled by recording the signed claims.
Stringly-typed JS errors become the `AuthError` enumeration, one
constructor per distinct message thrown by the service.
-/

namespace AuthService

/-- A row of the `User` table, with exactly the fields `auth.service.js`
reads and writes. -/
structure Account where
  id : Nat
  username : String
  email : String
  /-- the stored password hash -/
  password : String
  walletAddress : String
  isVerified : Bool
  verificationToken : Option String
  failedLoginAttempts : Nat
  lockUntil : Option Nat
  resetPasswordToken : Option String
  resetPasswordExpires : Option Nat
  deriving Repr, DecidableEq

/-- The public fields returned by `register`, `login`, `updateProfile`:
id, username, email, walletAddress, isVerified. -/
structure PublicUser where
  id : Nat
  username : String
  email : String
  walletAddress : String
  isVerified : Bool
  deriving Repr, DecidableEq

/-- The claims signed into the access token by `generateTokens`. -/
structure TokenPayload where
  id : Nat
  username : String
  email : String
  walletAddress : String
  deriving Repr, DecidableEq

/-- The token pair returned by `generateTokens`: access-token claims,
refresh-token claims (just the id), and the `expiresIn` string. -/
structure Tokens where
  accessToken : TokenPayload
  refreshTokenId : Nat
  expiresIn : String
  deriving Repr, DecidableEq

/-- The distinct error messages thrown by `AuthService`, as a tagged
enumeration (`accountLocked` carries the remaining-minutes value that is
interpolated into the message). -/
inductive AuthError where
  | invalidCredentials
  | accountLocked (remainingMinutes : Nat)
  | conflict
  | invalidVerificationToken
  | invalidOrExpiredToken
  | userNotFound
  deriving Repr, DecidableEq

/-- Success payload of `login`. -/
structure LoginOk where
  user : PublicUser
  tokens : Tokens
  deriving Repr, DecidableEq

/-- Success payload of `register`. -/
structure RegisterOk where
  user : PublicUser
  tokens : Tokens
  verificationToken : String
  deriving Repr, DecidableEq

/-- Result of `requestPasswordReset`: always a message, plus the raw
reset token when an account with the email exists. -/
structure ResetRequestResult where
  message : String
  resetToken : Option String
  deriving Repr, DecidableEq

def saltRounds : Nat := 12

def jwtExpiry : String := "24h"

/-- `maxAttempts` in `handleFailedLogin`. -/
def maxAttempts : Nat := 5

/-- `lockTime` in `handleFailedLogin`: 15 minutes in milliseconds. -/
def lockTime : Nat := 15 * 60 * 1000

def publicUser (u : Account) : PublicUser :=
  { id := u.id, username := u.username, email := u.email,
    walletAddress := u.walletAddress, isVerified := u.isVerified }

/-- `generateTokens`: the access token signs {id, username, email,
walletAddress}, the refresh token signs {id}. -/
def generateTokens (u : Account) : Tokens :=
  let payload : TokenPayload :=
    { id := u.id, username := u.username, email := u.email,
      walletAddress := u.walletAddress }
  { accessToken := payload, refreshTokenId := u.id, expiresIn := jwtExpiry }

/-- `user.update(...)`: persist the updated row back into the store,
replacing the row with the same id. -/
def saveAccount (store : List Account) (u : Account) : List Account :=
  store.map (fun a => if a.id == u.id then u else a)

/-- `handleFailedLogin`: increment `failedLoginAttempts`; lock for
`lockTime` when the new count reaches `maxAttempts`, else clear
`lockUntil`. -/
def handleFailedLogin (now : Nat) (u : Account) : Account :=
  let failedAttempts := u.failedLoginAttempts + 1
  let lockUntil := if failedAttempts ≥ maxAttempts then some (now + lockTime) else none
  { u with failedLoginAttempts := failedAttempts, lockUntil := lockUntil }

/-- `Math.ceil((lockUntil - Date.now()) / 1000 / 60)` on a positive
remaining-millisecond count: the ceiling of `remainingMs / 60000`. -/
def lockMinutesRemaining (remainingMs : Nat) : Nat :=
  (remainingMs + 59999) / 60000

/-- The tail of `login` after the lock check: verify the password; on
success clear the lockout fields and return the public fields and a
fresh token pair; on failure run `handleFailedLogin` and throw
`Invalid credentials`. -/
def loginVerify (c : String → String → Bool) (now : Nat) (store : List Account)
    (u : Account) (password : String) : Except AuthError LoginOk × List Account :=
  if c password u.password then
    let u' : Account := { u with failedLoginAttempts := 0, lockUntil := none }
    (.ok { user := publicUser u', tokens := generateTokens u' }, saveAccount store u')
  else
    (.error .invalidCredentials, saveAccount store (handleFailedLogin now u))

/-- `login`: find by email (`Invalid credentials` if absent); if
`lockUntil` is set and strictly in the future throw `Account is locked`
with the remaining minutes; otherwise verify the password. -/
def login (c : String → String → Bool) (now : Nat) (store : List Account)
    (email password : String) : Except AuthError LoginOk × List Account :=
  match store.find? (fun a => a.email == email) with
  | none => (.error .invalidCredentials, store)
  | some u =>
    match u.lockUntil with
    | some t =>
      if now < t then
        (.error (.accountLocked (lockMinutesRemaining (t - now))), store)
      else
        loginVerify c now store u password
    | none => loginVerify c now store u password

/-- The row `User.create` inserts during `register`: unverified, hashed
password, fresh verification token, clean lockout and reset state. -/
def newAccount (hashFn : String → String) (verificationToken : String)
    (newId : Nat) (username email password walletAddress : String) : Account :=
  { id := newId, username := username, email := email,
    password := hashFn password, walletAddress := walletAddress,
    isVerified := false, verificationToken := some verificationToken,
    failedLoginAttempts := 0, lockUntil := none,
    resetPasswordToken := none, resetPasswordExpires := none }

/-- `register`: conflict when an account with the same email or the same
username exists; otherwise create an unverified account with the hashed
password and the fresh verification token. -/
def register (hashFn : String → String) (verificationToken : String) (newId : Nat)
    (store : List Account) (username email password walletAddress : String) :
    Except AuthError RegisterOk × List Account :=
  match store.find? (fun a => a.email == email || a.username == username) with
  | some _ => (.error .conflict, store)
  | none =>
    let u : Account :=
      newAccount hashFn verificationToken newId username email password walletAddress
    (.ok { user := publicUser u, tokens := generateTokens u,
           verificationToken := verificationToken }, store ++ [u])

def alreadyVerifiedMsg : String := "Email already verified"

def verifiedMsg : String := "Email verified successfully"

/-- `verifyEmail`: find by exact verification-token match; error when
none; idempotent success when already verified; otherwise set
`isVerified` and clear the token. -/
def verifyEmail (store : List Account) (token : String) :
    Except AuthError String × List Account :=
  match store.find? (fun a => a.verificationToken == some token) with
  | none => (.error .invalidVerificationToken, store)
  | some u =>
    if u.isVerified then
      (.ok alreadyVerifiedMsg, store)
    else
      (.ok verifiedMsg,
       saveAccount store { u with isVerified := true, verificationToken := none })

def genericResetMsg : String :=
  "If an account with this email exists, a password reset link has been sent"

/-- `requestPasswordReset`: the same generic message whether or not the
email exists; when it does, store the fresh token with expiry now + 1
hour (3600000 ms), overwriting the previous reset fields. -/
def requestPasswordReset (resetToken : String) (now : Nat) (store : List Account)
    (email : String) : ResetRequestResult × List Account :=
  match store.find? (fun a => a.email == email) with
  | none => ({ message := genericResetMsg, resetToken := none }, store)
  | some u =>
    let u' : Account :=
      { u with resetPasswordToken := some resetToken,
               resetPasswordExpires := some (now + 3600000) }
    ({ message := genericResetMsg, resetToken := some resetToken },
     saveAccount store u')

/-- The `findOne` filter of `resetPassword`: `resetPasswordToken` equals
the input and `resetPasswordExpires` is strictly in the future
(`Op.gt: new Date()`; a null expiry never matches). -/
def resetTokenLive (now : Nat) (token : String) (a : Account) : Bool :=
  a.resetPasswordToken == some token &&
    match a.resetPasswordExpires with
    | some e => decide (now < e)
    | none => false

def resetSuccessMsg : String := "Password reset successfully"

/-- `resetPassword`: find by live reset token (`Invalid or expired reset
token` otherwise); on match store the new password hash, clear both
reset fields and the lockout fields. -/
def resetPassword (hashFn : String → String) (now : Nat) (store : List Account)
    (token newPassword : String) : Except AuthError String × List Account :=
  match store.find? (fun a => resetTokenLive now token a) with
  | none => (.error .invalidOrExpiredToken, store)
  | some u =>
    let u' : Account :=
      { u with password := hashFn newPassword,
               resetPasswordToken := none, resetPasswordExpires := none,
               failedLoginAttempts := 0, lockUntil := none }
    (.ok resetSuccessMsg, saveAccount store u')

/-- The update record passed to `updateProfile`: `user.update(updateData)`
applies every key present, so fields beyond the documented
username/email/walletAddress are carried too. -/
structure UpdateData where
  username : Option String := none
  email : Option String := none
  walletAddress : Option String := none
  isVerified : Option Bool := none
  password : Option String := none
  deriving Repr, DecidableEq

/-- JS truthiness of an optional string field (`undefined` and `""` are
falsy). -/
def struthy : Option String → Bool
  | some s => !(s == "")
  | none => false

/-- The collision filter of `updateProfile`: a DIFFERENT account (id not
equal) whose username or email equals a truthy requested value. -/
def collides (userId : Nat) (d : UpdateData) (a : Account) : Bool :=
  (!(a.id == userId)) &&
    ((struthy d.username && some a.username == d.username) ||
     (struthy d.email && some a.email == d.email))

/-- `user.update(updateData)`: every field present in the record is
written; absent fields are untouched. -/
def applyUpdate (u : Account) (d : UpdateData) : Account :=
  { u with
    username := d.username.getD u.username,
    email := d.email.getD u.email,
    walletAddress := d.walletAddress.getD u.walletAddress,
    isVerified := d.isVerified.getD u.isVerified,
    password := d.password.getD u.password }

/-- `updateProfile`: find by id; when a truthy username or email is
requested, reject on collision with a different account; then apply the
whole update record. -/
def updateProfile (store : List Account) (userId : Nat) (d : UpdateData) :
    Except AuthError PublicUser × List Account :=
  match store.find? (fun a => a.id == userId) with
  | none => (.error .userNotFound, store)
  | some u =>
    if struthy d.username || struthy d.email then
      match store.find? (fun a => collides userId d a) with
      | some _ => (.error .conflict, store)
      | none =>
        let u' := applyUpdate u d
        (.ok (publicUser u'), saveAccount store u')
    else
      let u' := applyUpdate u d
      (.ok (publicUser u'), saveAccount store u')

/-- `n` consecutive `login` calls with the same email/password, keeping
only the evolving store. -/
def loginN (c : String → String → Bool) (now : Nat) (store : List Account)
    (email password : String) : Nat → List Account
  | 0 => store
  | n + 1 => (login c now (loginN c now store email password n) email password).2

/-! ### Helper lemmas -/

theorem login_of_find_none (c : String → String → Bool) (now : Nat)
    (store : List Account) (e p : String)
    (hfind : store.find? (fun a => a.email == e) = none) :
    login c now store e p = (.error .invalidCredentials, store) := by
  simp [login, hfind]

theorem login_of_unlocked (c : String → String → Bool) (now : Nat)
    (store : List Account) (e p : String) (u : Account)
    (hfind : store.find? (fun a => a.email == e) = some u)
    (hunlocked : ∀ t, u.lockUntil = some t → t ≤ now) :
    login c now store e p = loginVerify c now store u p := by
  cases h : u.lockUntil with
  | none => simp [login, hfind, h]
  | some t =>
    have ht := hunlocked t h
    simp [login, hfind, h, Nat.not_lt.mpr ht]

theorem account_eta (u : Account) (h0 : u.failedLoginAttempts = 0)
    (hl : u.lockUntil = none) :
    ({ u with failedLoginAttempts := 0, lockUntil := none } : Account) = u := by
  cases u
  simp_all

theorem login_wrong_single (c : String → String → Bool) (now : Nat) (u : Account)
    (e p : String) (k : Nat) (he : u.email = e) (hp : c p u.password = false) :
    login c now [{ u with failedLoginAttempts := k, lockUntil := none }] e p
      = (.error .invalidCredentials,
         [{ u with failedLoginAttempts := k + 1, lockUntil := if k + 1 ≥ 5 then some (now + 15 * 60 * 1000) else none }]) := by
  obtain ⟨i, un, em, pw, w, v, vt, fl, lu, rt, re⟩ := u
  subst he
  simp only [] at hp
  simp [login, loginVerify, hp, saveAccount, handleFailedLogin, maxAttempts,
    lockTime, List.find?]

theorem handleFailedLogin_spec (now : Nat) (u : Account) :
    handleFailedLogin now u =
      { u with failedLoginAttempts := u.failedLoginAttempts + 1,
               lockUntil := if u.failedLoginAttempts + 1 ≥ 5
                            then some (now + 15 * 60 * 1000) else none } := by
  simp [handleFailedLogin, maxAttempts, lockTime]

theorem verifyEmail_of_find_none (store : List Account) (t : String)
    (h : store.find? (fun a => a.verificationToken == some t) = none) :
    verifyEmail store t = (.error .invalidVerificationToken, store) := by
  simp [verifyEmail, h]

theorem register_of_conflict (hashFn : String → String) (vt : String) (ni : Nat)
    (s : List Account) (u2 e2 p2 w2 : String)
    (h : ∃ a ∈ s, a.email = e2 ∨ a.username = u2) :
    register hashFn vt ni s u2 e2 p2 w2 = (.error .conflict, s) := by
  obtain ⟨a, ha, hcase⟩ := h
  have hpred : (a.email == e2 || a.username == u2) = true := by
    cases hcase with
    | inl h2 => simp [h2]
    | inr h2 => simp [h2]
  cases hf : s.find? (fun a => a.email == e2 || a.username == u2) with
  | none =>
    rw [List.find?_eq_none] at hf
    exact absurd hpred (by simpa using hf a ha)
  | some b => simp [register, hf]

/-! ### Concrete fixtures for witnesses -/

/-- A concrete account builder for witnesses: the remaining fields are
fixed innocuous values. -/
def mkAccount (id : Nat) (un em pw : String) (fl : Nat) (lu : Option Nat) : Account :=
  { id := id, username := un, email := em, password := pw,
    walletAddress := "0x1", isVerified := false, verificationToken := none,
    failedLoginAttempts := fl, lockUntil := lu,
    resetPasswordToken := none, resetPasswordExpires := none }

/-- A concrete locked account (lock expires at t = 1000900000 ms). -/
def wLocked : Account := mkAccount 1 "alice" "a@x.com" "H" 5 (some 1000900000)

/-- A concrete unlocked account with a clean lockout state. -/
def wClean : Account := mkAccount 1 "alice" "a@x.com" "H" 0 none

/-- A concrete account at the attempt threshold whose lock has already
expired (stale `lockUntil`). -/
def wStale : Account := mkAccount 1 "alice" "a@x.com" "H" 5 (some 3)

/-- A concrete locked account holding a live reset token (expires at
t = 9000). -/
def wReset : Account :=
  { mkAccount 2 "bob" "b@x.com" "H" 3 (some 99999) with
    resetPasswordToken := some "rtok", resetPasswordExpires := some 9000 }

/-- A concrete unverified account with a pending verification token. -/
def wVerify : Account :=
  { mkAccount 3 "carol" "c@x.com" "H" 0 none with
    verificationToken := some "vtok" }

end AuthService

namespace AuthService

/-! ### Claim theorems -/

/-- Claim C1: starting from an account with `failedLoginAttempts = 0` and no
active lock, each wrong-password login fails with `InvalidCredentials` and
increments `failedLoginAttempts`; after 4 such logins the account is still
UNLOCKED with `failedLoginAttempts = 4`, and the 5th wrong-password login sets
`lockUntil` = now + 15 minutes, entering the LOCKED state. -/
theorem C1_five_wrong_logins_lock_account
    (c : String → String → Bool) (now : Nat) (u : Account) (e p : String)
    (he : u.email = e) (h0 : u.failedLoginAttempts = 0) (hl : u.lockUntil = none)
    (hp : c p u.password = false) :
    (∀ k, k ≤ 4 → loginN c now [u] e p k
        = [{ u with failedLoginAttempts := k, lockUntil := none }])
    ∧ (∀ k, k < 5 → (login c now (loginN c now [u] e p k) e p).1
        = .error .invalidCredentials)
    ∧ loginN c now [u] e p 5
        = [{ u with failedLoginAttempts := 5, lockUntil := some (now + 15 * 60 * 1000) }] := by
  have base : ∀ k, k ≤ 4 → loginN c now [u] e p k
      = [{ u with failedLoginAttempts := k, lockUntil := none }] := by
    intro k hk
    induction k with
    | zero =>
      show [u] = _
      rw [account_eta u h0 hl]
    | succ n ih =>
      have hn : n ≤ 4 := by omega
      show (login c now (loginN c now [u] e p n) e p).2 = _
      rw [ih hn, login_wrong_single c now u e p n he hp,
        if_neg (show ¬ n + 1 ≥ 5 by omega)]
  refine ⟨base, ?_, ?_⟩
  · intro k hk
    rw [base k (by omega), login_wrong_single c now u e p k he hp]
  · show (login c now (loginN c now [u] e p 4) e p).2 = _
    rw [base 4 (by omega), login_wrong_single c now u e p 4 he hp,
      if_pos (show 4 + 1 ≥ 5 by omega)]

theorem C1_witness :
    wClean.email = "a@x.com" ∧ wClean.failedLoginAttempts = 0
    ∧ wClean.lockUntil = none
    ∧ loginN (fun _ _ => false) 7 [wClean] "a@x.com" "pw" 5
        = [{ wClean with failedLoginAttempts := 5, lockUntil := some (7 + 15 * 60 * 1000) }] :=
  ⟨rfl, rfl, rfl,
   (C1_five_wrong_logins_lock_account (fun _ _ => false) 7 wClean "a@x.com" "pw"
      rfl rfl rfl rfl).2.2⟩

/-- Claim C2: for every account in the LOCKED state (`lockUntil` non-null and
strictly in the future), `login` fails with `AccountLocked` carrying the
remaining lock duration in minutes (the ceiling of the remaining milliseconds
divided by 60000), regardless of the supplied password, and leaves the store
(hence `failedLoginAttempts` and `lockUntil`) unchanged. -/
theorem C2_locked_login_rejected_unchanged
    (c : String → String → Bool) (now : Nat) (store : List Account)
    (e p : String) (u : Account) (t : Nat)
    (hfind : store.find? (fun a => a.email == e) = some u)
    (ht : u.lockUntil = some t) (hnow : now < t) :
    login c now store e p
      = (.error (.accountLocked (lockMinutesRemaining (t - now))), store)
    ∧ (lockMinutesRemaining (t - now) - 1) * 60000 < t - now
    ∧ t - now ≤ lockMinutesRemaining (t - now) * 60000 := by
  refine ⟨?_, ?_, ?_⟩
  · simp [login, hfind, ht, hnow]
  · unfold lockMinutesRemaining
    omega
  · unfold lockMinutesRemaining
    omega

theorem C2_witness :
    ([wLocked].find? (fun a => a.email == "a@x.com") = some wLocked
      ∧ wLocked.lockUntil = some 1000900000 ∧ (1000000000 : Nat) < 1000900000)
    ∧ (login (fun _ _ => false) 1000000000 [wLocked] "a@x.com" "pw"
        = (.error (.accountLocked (lockMinutesRemaining (1000900000 - 1000000000))),
           [wLocked])
      ∧ (lockMinutesRemaining (1000900000 - 1000000000) - 1) * 60000
          < 1000900000 - 1000000000
      ∧ 1000900000 - 1000000000
          ≤ lockMinutesRemaining (1000900000 - 1000000000) * 60000) :=
  ⟨⟨by decide, rfl, by decide⟩,
   C2_locked_login_rejected_unchanged (fun _ _ => false) 1000000000 [wLocked]
     "a@x.com" "pw" wLocked 1000900000 (by decide) rfl (by decide)⟩

/-- Claim C3: for every UNLOCKED account (`lockUntil` null or in the past), a
login with the correct password stores `failedLoginAttempts = 0` and
`lockUntil = null` (a no-op when they are already clear: the written row then
equals the old one) and returns success with the public account fields and a
freshly issued access + refresh token pair. -/
theorem C3_correct_login_resets_and_succeeds
    (c : String → String → Bool) (now : Nat) (store : List Account)
    (e p : String) (u : Account)
    (hfind : store.find? (fun a => a.email == e) = some u)
    (hunlocked : ∀ t, u.lockUntil = some t → t ≤ now)
    (hp : c p u.password = true) :
    login c now store e p
      = (.ok { user := publicUser { u with failedLoginAttempts := 0, lockUntil := none }, tokens := generateTokens { u with failedLoginAttempts := 0, lockUntil := none } },
         saveAccount store { u with failedLoginAttempts := 0, lockUntil := none })
    ∧ (u.failedLoginAttempts = 0 ∧ u.lockUntil = none →
        ({ u with failedLoginAttempts := 0, lockUntil := none } : Account) = u) := by
  constructor
  · rw [login_of_unlocked c now store e p u hfind hunlocked]
    simp [loginVerify, hp]
  · rintro ⟨h0, hl⟩
    cases u
    simp_all

theorem C3_witness :
    login (fun _ _ => true) 7 [wClean] "a@x.com" "pw"
      = (.ok { user := publicUser { wClean with failedLoginAttempts := 0, lockUntil := none }, tokens := generateTokens { wClean with failedLoginAttempts := 0, lockUntil := none } },
         saveAccount [wClean] { wClean with failedLoginAttempts := 0, lockUntil := none })
    ∧ (wClean.failedLoginAttempts = 0 ∧ wClean.lockUntil = none →
        ({ wClean with failedLoginAttempts := 0, lockUntil := none } : Account) = wClean) :=
  C3_correct_login_resets_and_succeeds (fun _ _ => true) 7 [wClean] "a@x.com" "pw"
    wClean (by decide) (by intro t ht; simp [wClean, mkAccount] at ht) rfl

/-- Claim C6: a login whose email matches no account fails with exactly the
same `InvalidCredentials` error as a login with an existing email and a wrong
password: for every pair of store states and every such pair of inputs the two
failure outcomes coincide. -/
theorem C6_unknown_email_and_wrong_password_indistinguishable
    (c : String → String → Bool) (now : Nat) (s1 s2 : List Account)
    (e1 p1 e2 p2 : String) (u : Account)
    (h1 : s1.find? (fun a => a.email == e1) = none)
    (h2 : s2.find? (fun a => a.email == e2) = some u)
    (hu : ∀ t, u.lockUntil = some t → t ≤ now)
    (hp : c p2 u.password = false) :
    (login c now s1 e1 p1).1 = .error .invalidCredentials
    ∧ (login c now s2 e2 p2).1 = .error .invalidCredentials
    ∧ (login c now s1 e1 p1).1 = (login c now s2 e2 p2).1 := by
  have a1 : login c now s1 e1 p1 = (.error .invalidCredentials, s1) :=
    login_of_find_none c now s1 e1 p1 h1
  have a2 : (login c now s2 e2 p2).1 = .error .invalidCredentials := by
    rw [login_of_unlocked c now s2 e2 p2 u h2 hu]
    simp [loginVerify, hp]
  exact ⟨by rw [a1], a2, by rw [a1, a2]⟩

theorem C6_witness :
    (login (fun _ _ => false) 7 [] "b@x.com" "pw").1
      = .error .invalidCredentials
    ∧ (login (fun _ _ => false) 7 [wClean] "a@x.com" "pw").1
      = .error .invalidCredentials
    ∧ (login (fun _ _ => false) 7 [] "b@x.com" "pw").1
      = (login (fun _ _ => false) 7 [wClean] "a@x.com" "pw").1 :=
  C6_unknown_email_and_wrong_password_indistinguishable (fun _ _ => false) 7
    [] [wClean] "b@x.com" "pw" "a@x.com" "pw" wClean rfl (by decide)
    (by intro t ht; simp [wClean, mkAccount] at ht) rfl

/-- Claim C9: for every UNLOCKED account, a failed login stores
`handleFailedLogin` of the row, whose `lockUntil` is now + 15 minutes exactly
when the incremented `failedLoginAttempts` reaches 5, and null otherwise; so
once the count is at least 5 a single further wrong attempt after the lock
expires re-locks for 15 minutes, and below the threshold a stale expired
`lockUntil` is cleared. -/
theorem C9_failed_login_lock_threshold
    (c : String → String → Bool) (now : Nat) (store : List Account)
    (e p : String) (u : Account)
    (hfind : store.find? (fun a => a.email == e) = some u)
    (hunlocked : ∀ t, u.lockUntil = some t → t ≤ now)
    (hp : c p u.password = false) :
    login c now store e p
      = (.error .invalidCredentials, saveAccount store (handleFailedLogin now u))
    ∧ (handleFailedLogin now u).failedLoginAttempts = u.failedLoginAttempts + 1
    ∧ ((handleFailedLogin now u).lockUntil
        = if u.failedLoginAttempts + 1 ≥ 5 then some (now + 15 * 60 * 1000) else none)
    ∧ (5 ≤ u.failedLoginAttempts →
        (handleFailedLogin now u).lockUntil = some (now + 15 * 60 * 1000))
    ∧ (u.failedLoginAttempts + 1 < 5 → (handleFailedLogin now u).lockUntil = none) := by
  refine ⟨?_, ?_, ?_, ?_, ?_⟩
  · rw [login_of_unlocked c now store e p u hfind hunlocked]
    simp [loginVerify, hp]
  · simp [handleFailedLogin]
  · rw [handleFailedLogin_spec]
  · intro h
    rw [handleFailedLogin_spec]
    simp only
    rw [if_pos (by omega)]
  · intro h
    rw [handleFailedLogin_spec]
    simp only
    rw [if_neg (by omega)]

theorem C9_witness :
    login (fun _ _ => false) 7 [wStale] "a@x.com" "pw"
      = (.error .invalidCredentials, saveAccount [wStale] (handleFailedLogin 7 wStale))
    ∧ (handleFailedLogin 7 wStale).failedLoginAttempts
        = wStale.failedLoginAttempts + 1
    ∧ ((handleFailedLogin 7 wStale).lockUntil
        = if wStale.failedLoginAttempts + 1 ≥ 5 then some (7 + 15 * 60 * 1000) else none)
    ∧ (5 ≤ wStale.failedLoginAttempts →
        (handleFailedLogin 7 wStale).lockUntil = some (7 + 15 * 60 * 1000))
    ∧ (wStale.failedLoginAttempts + 1 < 5 →
        (handleFailedLogin 7 wStale).lockUntil = none) :=
  C9_failed_login_lock_threshold (fun _ _ => false) 7 [wStale] "a@x.com" "pw"
    wStale (by decide) (by intro t ht; simp [wStale, mkAccount] at ht; omega) rfl

/-- Claim C4: `resetPassword` succeeds exactly when some account has
`resetPasswordToken` equal to the input token and `resetPasswordExpires`
strictly in the future; in every other case it fails with the single
`InvalidOrExpiredToken` error and leaves the store unchanged; on success it
stores the hash of the new password, nulls both reset fields, and resets
`failedLoginAttempts` to 0 and `lockUntil` to null, lifting any lockout. -/
theorem C4_resetPassword_success_iff_live_token
    (hashFn : String → String) (now : Nat) (store : List Account)
    (token newp : String) :
    ((resetPassword hashFn now store token newp).1.isOk = true
      ↔ ∃ u ∈ store, u.resetPasswordToken = some token
          ∧ ∃ e2, u.resetPasswordExpires = some e2 ∧ now < e2)
    ∧ (store.find? (fun a => resetTokenLive now token a) = none →
        resetPassword hashFn now store token newp
          = (.error .invalidOrExpiredToken, store))
    ∧ (∀ u, store.find? (fun a => resetTokenLive now token a) = some u →
        resetPassword hashFn now store token newp
          = (.ok resetSuccessMsg,
             saveAccount store { u with password := hashFn newp, resetPasswordToken := none, resetPasswordExpires := none, failedLoginAttempts := 0, lockUntil := none })) := by
  have hlive : ∀ a : Account, resetTokenLive now token a = true
      ↔ a.resetPasswordToken = some token
        ∧ ∃ e2, a.resetPasswordExpires = some e2 ∧ now < e2 := by
    intro a
    cases h : a.resetPasswordExpires with
    | none => simp [resetTokenLive, h]
    | some e2 => simp [resetTokenLive, h]
  refine ⟨?_, ?_, ?_⟩
  · constructor
    · intro hok
      cases hf : store.find? (fun a => resetTokenLive now token a) with
      | none =>
        exfalso
        have hval : (resetPassword hashFn now store token newp).1
            = .error .invalidOrExpiredToken := by
          simp [resetPassword, hf]
        rw [hval] at hok
        simp [Except.isOk, Except.toBool] at hok
      | some u =>
        have hmem := List.mem_of_find?_eq_some hf
        have hpred := (hlive u).mp (List.find?_some hf)
        exact ⟨u, hmem, hpred.1, hpred.2⟩
    · rintro ⟨u, hu, htok, e2, hexp, hlt⟩
      cases hf : store.find? (fun a => resetTokenLive now token a) with
      | none =>
        rw [List.find?_eq_none] at hf
        exact absurd ((hlive u).mpr ⟨htok, e2, hexp, hlt⟩) (by simpa using hf u hu)
      | some v => simp [resetPassword, hf, Except.isOk, Except.toBool]
  · intro hf
    simp [resetPassword, hf]
  · intro u hf
    simp [resetPassword, hf]

theorem C4_witness :
    ((resetPassword (fun s => s ++ "#") 7 [wReset] "rtok" "npw").1.isOk = true
      ↔ ∃ u ∈ [wReset], u.resetPasswordToken = some "rtok"
          ∧ ∃ e2, u.resetPasswordExpires = some e2 ∧ 7 < e2)
    ∧ ([wReset].find? (fun a => resetTokenLive 7 "rtok" a) = none →
        resetPassword (fun s => s ++ "#") 7 [wReset] "rtok" "npw"
          = (.error .invalidOrExpiredToken, [wReset]))
    ∧ (∀ u, [wReset].find? (fun a => resetTokenLive 7 "rtok" a) = some u →
        resetPassword (fun s => s ++ "#") 7 [wReset] "rtok" "npw"
          = (.ok resetSuccessMsg,
             saveAccount [wReset] { u with password := (fun s => s ++ "#") "npw", resetPasswordToken := none, resetPasswordExpires := none, failedLoginAttempts := 0, lockUntil := none })) :=
  C4_resetPassword_success_iff_live_token (fun s => s ++ "#") 7 [wReset] "rtok" "npw"

/-- Claim C5: email verification is single-use per token: a successful
`verifyEmail t` sets `isVerified = true` and clears `verificationToken` to
null, so a second `verifyEmail t` with the same original token fails with
`InvalidToken`; a `verifyEmail` whose token matches an already-verified
account returns success without modifying the store.  (`hunique` states that
no other account row carries the same token, which the store's token
uniqueness provides.) -/
theorem C5_verifyEmail_single_use
    (store : List Account) (t : String) (u : Account)
    (hfind : store.find? (fun a => a.verificationToken == some t) = some u)
    (hunique : ∀ a ∈ store, a.verificationToken = some t → a.id = u.id) :
    (u.isVerified = false →
      (verifyEmail store t).1 = .ok verifiedMsg
      ∧ (verifyEmail store t).2
          = saveAccount store { u with isVerified := true, verificationToken := none }
      ∧ (∀ a ∈ (verifyEmail store t).2, a.verificationToken ≠ some t)
      ∧ verifyEmail (verifyEmail store t).2 t
          = (.error .invalidVerificationToken, (verifyEmail store t).2))
    ∧ (u.isVerified = true → verifyEmail store t = (.ok alreadyVerifiedMsg, store)) := by
  constructor
  · intro hv
    have hval : verifyEmail store t
        = (.ok verifiedMsg, saveAccount store { u with isVerified := true, verificationToken := none }) := by
      simp [verifyEmail, hfind, hv]
    have hnone : ∀ a ∈ (verifyEmail store t).2, a.verificationToken ≠ some t := by
      rw [hval]
      intro a ha
      rw [saveAccount, List.mem_map] at ha
      obtain ⟨b, hb, hba⟩ := ha
      by_cases hid : (b.id == ({ u with isVerified := true, verificationToken := none } : Account).id) = true
      · rw [if_pos hid] at hba
        rw [← hba]
        simp
      · rw [if_neg hid] at hba
        rw [← hba]
        intro htok
        have := hunique b hb htok
        simp [this] at hid
    have hfind2 : (verifyEmail store t).2.find?
        (fun a => a.verificationToken == some t) = none := by
      rw [List.find?_eq_none]
      intro a ha
      simpa using hnone a ha
    exact ⟨by rw [hval], by rw [hval],
      hnone, verifyEmail_of_find_none (verifyEmail store t).2 t hfind2⟩
  · intro hv
    simp [verifyEmail, hfind, hv]

theorem C5_witness :
    ([wVerify].find? (fun a => a.verificationToken == some "vtok") = some wVerify)
    ∧ ((wVerify.isVerified = false →
        (verifyEmail [wVerify] "vtok").1 = .ok verifiedMsg
        ∧ (verifyEmail [wVerify] "vtok").2
            = saveAccount [wVerify] { wVerify with isVerified := true, verificationToken := none }
        ∧ (∀ a ∈ (verifyEmail [wVerify] "vtok").2, a.verificationToken ≠ some "vtok")
        ∧ verifyEmail (verifyEmail [wVerify] "vtok").2 "vtok"
            = (.error .invalidVerificationToken, (verifyEmail [wVerify] "vtok").2))
      ∧ (wVerify.isVerified = true →
          verifyEmail [wVerify] "vtok" = (.ok alreadyVerifiedMsg, [wVerify]))) :=
  ⟨by decide,
   C5_verifyEmail_single_use [wVerify] "vtok" wVerify (by decide) (by decide)⟩

/-- Claim C7: `register` fails with `Conflict` and creates no account whenever
some existing account has the same email or the same username (compared by
plain string equality, case-sensitively); in particular, after a successful
registration of an email, any second registration with that email fails with
`Conflict` even with a different username. -/
theorem C7_register_conflict_on_duplicate
    (hashFn : String → String) (vtok : String) (newId : Nat)
    (store : List Account) (un em pw w : String) :
    ((∃ a ∈ store, a.email = em ∨ a.username = un) →
      register hashFn vtok newId store un em pw w = (.error .conflict, store))
    ∧ (∀ vtok2 newId2 un2 pw2 w2,
        (register hashFn vtok newId store un em pw w).1.isOk = true →
        register hashFn vtok2 newId2 (register hashFn vtok newId store un em pw w).2
            un2 em pw2 w2
          = (.error .conflict, (register hashFn vtok newId store un em pw w).2)) := by
  constructor
  · intro h
    exact register_of_conflict hashFn vtok newId store un em pw w h
  · intro vtok2 newId2 un2 pw2 w2 hok
    cases hf : store.find? (fun a => a.email == em || a.username == un) with
    | some b =>
      exfalso
      have hval : (register hashFn vtok newId store un em pw w).1
          = .error .conflict := by
        simp [register, hf]
      rw [hval] at hok
      simp [Except.isOk, Except.toBool] at hok
    | none =>
      have hsnd : (register hashFn vtok newId store un em pw w).2
          = store ++ [newAccount hashFn vtok newId un em pw w] := by
        simp [register, hf]
      rw [hsnd]
      apply register_of_conflict
      refine ⟨newAccount hashFn vtok newId un em pw w, ?_, Or.inl rfl⟩
      simp

theorem C7_witness :
    ((∃ a ∈ ([] : List Account), a.email = "a@x.com" ∨ a.username = "alice") →
      register (fun s => s ++ "#") "vt" 1 [] "alice" "a@x.com" "pw" "0x1"
        = (.error .conflict, []))
    ∧ (∀ vtok2 newId2 un2 pw2 w2,
        (register (fun s => s ++ "#") "vt" 1 [] "alice" "a@x.com" "pw" "0x1").1.isOk
          = true →
        register (fun s => s ++ "#") vtok2 newId2
            (register (fun s => s ++ "#") "vt" 1 [] "alice" "a@x.com" "pw" "0x1").2
            un2 "a@x.com" pw2 w2
          = (.error .conflict,
             (register (fun s => s ++ "#") "vt" 1 [] "alice" "a@x.com" "pw" "0x1").2)) :=
  C7_register_conflict_on_duplicate (fun s => s ++ "#") "vt" 1 [] "alice" "a@x.com"
    "pw" "0x1"

/-- Claim C8: for every input email, `requestPasswordReset` returns the same
generic success message whether or not an account with that email exists;
when the account exists it stores the fresh reset token with
`resetPasswordExpires` = now + 1 hour (3600000 ms), overwriting any previously
stored reset token. -/
theorem C8_reset_request_uniform_message_and_overwrite
    (rtok : String) (now : Nat) (store : List Account) (email : String) :
    (requestPasswordReset rtok now store email).1.message = genericResetMsg
    ∧ (store.find? (fun a => a.email == email) = none →
        (requestPasswordReset rtok now store email).2 = store)
    ∧ (∀ u, store.find? (fun a => a.email == email) = some u →
        (requestPasswordReset rtok now store email).2
          = saveAccount store { u with resetPasswordToken := some rtok, resetPasswordExpires := some (now + 3600000) }) := by
  refine ⟨?_, ?_, ?_⟩
  · cases hf : store.find? (fun a => a.email == email) with
    | none => simp [requestPasswordReset, hf]
    | some u => simp [requestPasswordReset, hf]
  · intro hf
    simp [requestPasswordReset, hf]
  · intro u hf
    simp [requestPasswordReset, hf]

theorem C8_witness :
    (requestPasswordReset "r2" 7 [wReset] "b@x.com").1.message = genericResetMsg
    ∧ ([wReset].find? (fun a => a.email == "b@x.com") = none →
        (requestPasswordReset "r2" 7 [wReset] "b@x.com").2 = [wReset])
    ∧ (∀ u, [wReset].find? (fun a => a.email == "b@x.com") = some u →
        (requestPasswordReset "r2" 7 [wReset] "b@x.com").2
          = saveAccount [wReset] { u with resetPasswordToken := some "r2", resetPasswordExpires := some (7 + 3600000) }) :=
  C8_reset_request_uniform_message_and_overwrite "r2" 7 [wReset] "b@x.com"

/-- Claim C10: `updateProfile` persists every field present in the input
record, not only username, email and walletAddress — a present `isVerified`
or `password` is written too — while absent fields are unchanged; and the
uniqueness collision filter (which excludes the account's own id) only ever
tests username and email, never the other fields. -/
theorem C10_updateProfile_applies_all_fields
    (store : List Account) (userId : Nat) (u : Account) (d : UpdateData)
    (hfind : store.find? (fun a => a.id == userId) = some u)
    (hnocol : store.find? (fun a => collides userId d a) = none) :
    updateProfile store userId d
      = (.ok (publicUser (applyUpdate u d)), saveAccount store (applyUpdate u d))
    ∧ (∀ b, d.isVerified = some b → (applyUpdate u d).isVerified = b)
    ∧ (∀ pw, d.password = some pw → (applyUpdate u d).password = pw)
    ∧ (∀ s, d.username = some s → (applyUpdate u d).username = s)
    ∧ (d.username = none → (applyUpdate u d).username = u.username)
    ∧ (d.email = none → (applyUpdate u d).email = u.email)
    ∧ (d.walletAddress = none → (applyUpdate u d).walletAddress = u.walletAddress)
    ∧ (d.isVerified = none → (applyUpdate u d).isVerified = u.isVerified)
    ∧ (d.password = none → (applyUpdate u d).password = u.password)
    ∧ (struthy d.username = false → struthy d.email = false →
        ∀ a, collides userId d a = false) := by
  refine ⟨?_, ?_, ?_, ?_, ?_, ?_, ?_, ?_, ?_, ?_⟩
  · by_cases h : (struthy d.username || struthy d.email) = true
    · simp [updateProfile, hfind, h, hnocol]
    · simp [updateProfile, hfind, h]
  · intro b hb
    simp [applyUpdate, hb]
  · intro pw hpw
    simp [applyUpdate, hpw]
  · intro s hs
    simp [applyUpdate, hs]
  · intro h
    simp [applyUpdate, h]
  · intro h
    simp [applyUpdate, h]
  · intro h
    simp [applyUpdate, h]
  · intro h
    simp [applyUpdate, h]
  · intro h
    simp [applyUpdate, h]
  · intro h1 h2 a
    simp [collides, h1, h2]

theorem C10_witness :
    updateProfile [wClean] 1
        { username := some "dora", isVerified := some true, password := some "NP" }
      = (.ok (publicUser (applyUpdate wClean { username := some "dora", isVerified := some true, password := some "NP" })),
         saveAccount [wClean] (applyUpdate wClean { username := some "dora", isVerified := some true, password := some "NP" }))
    ∧ (applyUpdate wClean { username := some "dora", isVerified := some true, password := some "NP" }).isVerified = true
    ∧ (applyUpdate wClean { username := some "dora", isVerified := some true, password := some "NP" }).password = "NP"
    ∧ (applyUpdate wClean { username := some "dora", isVerified := some true, password := some "NP" }).username = "dora"
    ∧ (applyUpdate wClean { username := some "dora", isVerified := some true, password := some "NP" }).email = wClean.email
    ∧ (applyUpdate wClean { username := some "dora", isVerified := some true, password := some "NP" }).walletAddress = wClean.walletAddress :=
  by
  have h := C10_updateProfile_applies_all_fields [wClean] 1 wClean
    { username := some "dora", isVerified := some true, password := some "NP" }
    (by decide) (by decide)
  exact ⟨h.1, h.2.1 true rfl, h.2.2.1 "NP" rfl, h.2.2.2.1 "dora" rfl,
    h.2.2.2.2.2.1 rfl, h.2.2.2.2.2.2.1 rfl⟩

end AuthService
